import Mathlib

/-!
Shallow embedding of the Allo Katana ASoC codec driver
(`src/sound/soc/bcm/allo-katana-codec.c`) and proofs about it.

Modelling conventions:
* Machine integers are `Nat` (register numbers, register values, PCM
  parameters) or `Int` (C `int` return codes).  No value in this driver
  ever approaches an overflow boundary, so no wrap-around modelling is
  needed.
* regmap side effects are made explicit: a function that performs
  register writes returns, next to its C return code, the list of write
  attempts it issued, in program order.  The outcome of each fallible
  external call (`regmap_write`, `devm_regmap_init_i2c`, `devm_kzalloc`,
  `regmap_read`, `snd_soc_register_component`) is an explicit argument,
  playing the role of the environment's response.
* Fields of kernel structures that the driver never touches are omitted;
  `struct katana_codec_priv` keeps both of its fields (the regmap handle
  is abstracted to a `Nat` identifier).
-/

namespace AlloKatana

/-- Linux errno `EINVAL` (invalid argument); the driver returns `-EINVAL`. -/
def EINVAL : Int := 22

/-- Linux errno `ENOMEM` (out of memory); the driver returns `-ENOMEM`. -/
def ENOMEM : Int := 12

/-- `#define KATANA_CODEC_CHIP_ID 0x30`. -/
def KATANA_CODEC_CHIP_ID : Nat := 0x30

/-- `#define KATANA_CODEC_VIRT_BASE 0x100`. -/
def KATANA_CODEC_VIRT_BASE : Nat := 0x100

/-- `#define KATANA_CODEC_CHIP_ID_REG (KATANA_CODEC_VIRT_BASE + 0)`. -/
def KATANA_CODEC_CHIP_ID_REG : Nat := KATANA_CODEC_VIRT_BASE + 0

/-- `#define KATANA_CODEC_RESET (KATANA_CODEC_VIRT_BASE + 1)`. -/
def KATANA_CODEC_RESET : Nat := KATANA_CODEC_VIRT_BASE + 1

/-- `#define KATANA_CODEC_VOLUME_1 (KATANA_CODEC_VIRT_BASE + 2)`. -/
def KATANA_CODEC_VOLUME_1 : Nat := KATANA_CODEC_VIRT_BASE + 2

/-- `#define KATANA_CODEC_VOLUME_2 (KATANA_CODEC_VIRT_BASE + 3)`. -/
def KATANA_CODEC_VOLUME_2 : Nat := KATANA_CODEC_VIRT_BASE + 3

/-- `#define KATANA_CODEC_MUTE (KATANA_CODEC_VIRT_BASE + 4)`. -/
def KATANA_CODEC_MUTE : Nat := KATANA_CODEC_VIRT_BASE + 4

/-- `#define KATANA_CODEC_DSP_PROGRAM (KATANA_CODEC_VIRT_BASE + 5)`. -/
def KATANA_CODEC_DSP_PROGRAM : Nat := KATANA_CODEC_VIRT_BASE + 5

/-- `#define KATANA_CODEC_DEEMPHASIS (KATANA_CODEC_VIRT_BASE + 6)`. -/
def KATANA_CODEC_DEEMPHASIS : Nat := KATANA_CODEC_VIRT_BASE + 6

/-- `#define KATANA_CODEC_DOP (KATANA_CODEC_VIRT_BASE + 7)`. -/
def KATANA_CODEC_DOP : Nat := KATANA_CODEC_VIRT_BASE + 7

/-- `#define KATANA_CODEC_FORMAT (KATANA_CODEC_VIRT_BASE + 8)`. -/
def KATANA_CODEC_FORMAT : Nat := KATANA_CODEC_VIRT_BASE + 8

/-- `#define KATANA_CODEC_COMMAND (KATANA_CODEC_VIRT_BASE + 9)`. -/
def KATANA_CODEC_COMMAND : Nat := KATANA_CODEC_VIRT_BASE + 9

/-- `#define KATANA_CODEC_MUTE_STREAM (KATANA_CODEC_VIRT_BASE + 10)`. -/
def KATANA_CODEC_MUTE_STREAM : Nat := KATANA_CODEC_VIRT_BASE + 10

/-- `#define KATANA_CODEC_MAX_REGISTER (KATANA_CODEC_VIRT_BASE + 10)`. -/
def KATANA_CODEC_MAX_REGISTER : Nat := KATANA_CODEC_VIRT_BASE + 10

/-- `#define KATANA_CODEC_CHAN_MONO 0x00`. -/
def KATANA_CODEC_CHAN_MONO : Nat := 0x00

/-- `#define KATANA_CODEC_CHAN_STEREO 0x80`. -/
def KATANA_CODEC_CHAN_STEREO : Nat := 0x80

/-- `#define KATANA_CODEC_ALEN_16 0x10`. -/
def KATANA_CODEC_ALEN_16 : Nat := 0x10

/-- `#define KATANA_CODEC_ALEN_24 0x20`. -/
def KATANA_CODEC_ALEN_24 : Nat := 0x20

/-- `#define KATANA_CODEC_ALEN_32 0x30`. -/
def KATANA_CODEC_ALEN_32 : Nat := 0x30

/-- `#define KATANA_CODEC_RATE_11025 0x01`. -/
def KATANA_CODEC_RATE_11025 : Nat := 0x01

/-- `#define KATANA_CODEC_RATE_22050 0x02`. -/
def KATANA_CODEC_RATE_22050 : Nat := 0x02

/-- `#define KATANA_CODEC_RATE_32000 0x03`. -/
def KATANA_CODEC_RATE_32000 : Nat := 0x03

/-- `#define KATANA_CODEC_RATE_44100 0x04`. -/
def KATANA_CODEC_RATE_44100 : Nat := 0x04

/-- `#define KATANA_CODEC_RATE_48000 0x05`. -/
def KATANA_CODEC_RATE_48000 : Nat := 0x05

/-- `#define KATANA_CODEC_RATE_88200 0x06`. -/
def KATANA_CODEC_RATE_88200 : Nat := 0x06

/-- `#define KATANA_CODEC_RATE_96000 0x07`. -/
def KATANA_CODEC_RATE_96000 : Nat := 0x07

/-- `#define KATANA_CODEC_RATE_176400 0x08`. -/
def KATANA_CODEC_RATE_176400 : Nat := 0x08

/-- `#define KATANA_CODEC_RATE_192000 0x09`. -/
def KATANA_CODEC_RATE_192000 : Nat := 0x09

/-- `#define KATANA_CODEC_RATE_352800 0x0a`. -/
def KATANA_CODEC_RATE_352800 : Nat := 0x0a

/-- `#define KATANA_CODEC_RATE_384000 0x0b`. -/
def KATANA_CODEC_RATE_384000 : Nat := 0x0b

/-- DAI format constant from the Linux kernel header `include/sound/soc-dai.h`:
`SND_SOC_DAIFMT_CBM_CFM = (1 << 12)` (codec is bit-clock and frame master). -/
def SND_SOC_DAIFMT_CBM_CFM : Nat := 0x1000

/-- DAI format constant from `include/sound/soc-dai.h`:
`SND_SOC_DAIFMT_CBS_CFS = (4 << 12)` (codec is bit-clock and frame slave). -/
def SND_SOC_DAIFMT_CBS_CFS : Nat := 0x4000

/-- DAI format mask from `include/sound/soc-dai.h`:
`SND_SOC_DAIFMT_MASTER_MASK = 0xf000`. -/
def SND_SOC_DAIFMT_MASTER_MASK : Nat := 0xf000

/-- `struct katana_codec_priv`: the driver's private state, a regmap handle
(abstracted to an identifier) and the stored DAI format. -/
structure katana_codec_priv where
  regmap : Nat
  fmt : Nat
deriving DecidableEq

/-- `katana_codec_hw_params` (lines 151-236 of the source).

Arguments: the stored DAI format `katana_fmt` (the `katana_codec->fmt`
field), the negotiated `channels`, `width` (`params_width`) and `rate`
(`params_rate`), and `writeRet`, the environment's return code for the
single `regmap_write` call should it be reached.

Result: the C return value, paired with the list of register write
attempts `(register, value)` issued, in program order.  The `fmt` local
variable is built exactly as in the source: channel bits first, then the
width switch OR-ing in the audio-length code (defaulting to `-EINVAL`),
then the rate switch OR-ing in the rate code (defaulting to `-EINVAL`),
then a single `regmap_write` to `KATANA_CODEC_FORMAT` whose failure code
is propagated.  In `SND_SOC_DAIFMT_CBS_CFS` mode nothing happens and 0 is
returned; any other master-field value yields `-EINVAL`. -/
def katana_codec_hw_params (katana_fmt channels width rate : Nat)
    (writeRet : Int) : Int × List (Nat × Nat) :=
  if katana_fmt &&& SND_SOC_DAIFMT_MASTER_MASK = SND_SOC_DAIFMT_CBM_CFM then
    let fmt0 : Nat :=
      if channels = 2 then KATANA_CODEC_CHAN_STEREO else KATANA_CODEC_CHAN_MONO
    let fmt1 : Option Nat :=
      if width = 16 then some (fmt0 ||| KATANA_CODEC_ALEN_16)
      else if width = 24 then some (fmt0 ||| KATANA_CODEC_ALEN_24)
      else if width = 32 then some (fmt0 ||| KATANA_CODEC_ALEN_32)
      else none
    match fmt1 with
    | none => (-EINVAL, [])
    | some f1 =>
      let fmt2 : Option Nat :=
        if rate = 44100 then some (f1 ||| KATANA_CODEC_RATE_44100)
        else if rate = 48000 then some (f1 ||| KATANA_CODEC_RATE_48000)
        else if rate = 88200 then some (f1 ||| KATANA_CODEC_RATE_88200)
        else if rate = 96000 then some (f1 ||| KATANA_CODEC_RATE_96000)
        else if rate = 176400 then some (f1 ||| KATANA_CODEC_RATE_176400)
        else if rate = 192000 then some (f1 ||| KATANA_CODEC_RATE_192000)
        else if rate = 352800 then some (f1 ||| KATANA_CODEC_RATE_352800)
        else if rate = 384000 then some (f1 ||| KATANA_CODEC_RATE_384000)
        else none
      match fmt2 with
      | none => (-EINVAL, [])
      | some f2 =>
        if writeRet ≠ 0 then (writeRet, [(KATANA_CODEC_FORMAT, f2)])
        else (0, [(KATANA_CODEC_FORMAT, f2)])
  else if katana_fmt &&& SND_SOC_DAIFMT_MASTER_MASK = SND_SOC_DAIFMT_CBS_CFS then
    (0, [])
  else
    (-EINVAL, [])

/-- Claim C1: in codec-master mode (`SND_SOC_DAIFMT_CBM_CFM`), with a valid
width paired with its audio-length code (16 ↦ 0x10, 24 ↦ 0x20, 32 ↦ 0x30)
and a valid rate paired with its rate code (44100 ↦ 0x04 … 384000 ↦ 0x0b),
`katana_codec_hw_params` issues exactly one register write, to the
`KATANA_CODEC_FORMAT` register 0x108, of the byte formed by OR-ing the
channel bits (0x80 for 2 channels, 0x00 for any other channel count), the
width code and the rate code, and returns 0 when that write succeeds. -/
theorem hw_params_master_writes_format (sf ch w r wc rc : Nat)
    (hm : sf &&& SND_SOC_DAIFMT_MASTER_MASK = SND_SOC_DAIFMT_CBM_CFM)
    (hw : (w, wc) ∈ ([(16, 0x10), (24, 0x20), (32, 0x30)] : List (Nat × Nat)))
    (hr : (r, rc) ∈ ([(44100, 0x04), (48000, 0x05), (88200, 0x06),
        (96000, 0x07), (176400, 0x08), (192000, 0x09), (352800, 0x0a),
        (384000, 0x0b)] : List (Nat × Nat))) :
    katana_codec_hw_params sf ch w r 0 =
      (0, [(0x108, (if ch = 2 then 0x80 else 0x00) ||| wc ||| rc)]) := by
  simp only [List.mem_cons, List.not_mem_nil, or_false, Prod.mk.injEq] at hw hr
  obtain hw | hw | hw := hw <;>
    obtain hr | hr | hr | hr | hr | hr | hr | hr := hr <;>
    obtain ⟨rfl, rfl⟩ := hw <;>
    obtain ⟨rfl, rfl⟩ := hr <;>
    by_cases hch : ch = 2 <;>
    simp [katana_codec_hw_params, hm, hch, KATANA_CODEC_CHAN_STEREO,
      KATANA_CODEC_CHAN_MONO, KATANA_CODEC_ALEN_16, KATANA_CODEC_ALEN_24,
      KATANA_CODEC_ALEN_32, KATANA_CODEC_RATE_44100, KATANA_CODEC_RATE_48000,
      KATANA_CODEC_RATE_88200, KATANA_CODEC_RATE_96000,
      KATANA_CODEC_RATE_176400, KATANA_CODEC_RATE_192000,
      KATANA_CODEC_RATE_352800, KATANA_CODEC_RATE_384000,
      KATANA_CODEC_FORMAT, KATANA_CODEC_VIRT_BASE]

/-- Witness for C1: a concrete successful stereo call (16-bit, 44.1 kHz)
and a concrete mono call (1 channel). -/
theorem hw_params_master_writes_format_witness :
    katana_codec_hw_params 0x1000 2 16 44100 0 =
      (0, [(0x108, (if (2 : Nat) = 2 then 0x80 else 0x00) ||| 0x10 ||| 0x04)]) ∧
    katana_codec_hw_params 0x1000 1 32 384000 0 =
      (0, [(0x108, (if (1 : Nat) = 2 then 0x80 else 0x00) ||| 0x30 ||| 0x0b)]) :=
  ⟨hw_params_master_writes_format 0x1000 2 16 44100 0x10 0x04 (by decide)
      (by decide) (by decide),
   hw_params_master_writes_format 0x1000 1 32 384000 0x30 0x0b (by decide)
      (by decide) (by decide)⟩

/-- Claim C2: in codec-master mode, a width outside {16, 24, 32} makes
`katana_codec_hw_params` return `-EINVAL` with no register write; a valid
width with a rate outside the eight supported values (so in particular
11025, 22050 and 32000, whose rate codes exist but are never used) also
returns `-EINVAL` with no register write. -/
theorem hw_params_master_rejects (sf ch w r : Nat) (wret : Int)
    (hm : sf &&& SND_SOC_DAIFMT_MASTER_MASK = SND_SOC_DAIFMT_CBM_CFM) :
    (w ∉ ([16, 24, 32] : List Nat) →
      katana_codec_hw_params sf ch w r wret = (-EINVAL, [])) ∧
    (w ∈ ([16, 24, 32] : List Nat) →
      r ∉ ([44100, 48000, 88200, 96000, 176400, 192000, 352800, 384000] :
          List Nat) →
      katana_codec_hw_params sf ch w r wret = (-EINVAL, [])) := by
  constructor
  · intro hwbad
    simp only [List.mem_cons, List.not_mem_nil, or_false, not_or] at hwbad
    obtain ⟨h16, h24, h32⟩ := hwbad
    simp [katana_codec_hw_params, hm, h16, h24, h32]
  · intro hwok hrbad
    simp only [List.mem_cons, List.not_mem_nil, or_false, not_or] at hrbad
    obtain ⟨r1, r2, r3, r4, r5, r6, r7, r8⟩ := hrbad
    simp only [List.mem_cons, List.not_mem_nil, or_false] at hwok
    rcases hwok with rfl | rfl | rfl <;>
      simp [katana_codec_hw_params, hm, r1, r2, r3, r4, r5, r6, r7, r8]

/-- Witness for C2: width 20 is rejected; rate 32000 (which has a defined
rate code 0x03) is rejected even with a valid width. -/
theorem hw_params_master_rejects_witness :
    katana_codec_hw_params 0x1000 2 20 44100 0 = (-EINVAL, []) ∧
    katana_codec_hw_params 0x1000 2 16 32000 0 = (-EINVAL, []) :=
  ⟨(hw_params_master_rejects 0x1000 2 20 44100 0 (by decide)).1 (by decide),
   (hw_params_master_rejects 0x1000 2 16 32000 0 (by decide)).2 (by decide)
      (by decide)⟩

/-- `struct soc_enum` as produced by `SOC_VALUE_ENUM_SINGLE_DECL(name, reg,
shift, mask, texts, values)`: a value-mapped enum control description. -/
structure soc_enum where
  reg : Nat
  shift_l : Nat
  mask : Nat
  texts : List String
  values : List Nat
deriving DecidableEq

/-- `katana_codec_dsp_program_texts`: the seven DSP filter names. -/
def katana_codec_dsp_program_texts : List String :=
  ["Linear Phase Fast Roll-off Filter",
   "Linear Phase Slow Roll-off Filter",
   "Minimum Phase Fast Roll-off Filter",
   "Minimum Phase Slow Roll-off Filter",
   "Apodizing Fast Roll-off Filter",
   "Corrected Minimum Phase Fast Roll-off Filter",
   "Brick Wall Filter"]

/-- `katana_codec_dsp_program_values`: the register values for the filters. -/
def katana_codec_dsp_program_values : List Nat :=
  [0, 1, 2, 3, 4, 6, 7]

/-- `SOC_VALUE_ENUM_SINGLE_DECL(katana_codec_dsp_program,
KATANA_CODEC_DSP_PROGRAM, 0, 0x07, texts, values)`. -/
def katana_codec_dsp_program : soc_enum :=
  { reg := KATANA_CODEC_DSP_PROGRAM, shift_l := 0, mask := 0x07,
    texts := katana_codec_dsp_program_texts,
    values := katana_codec_dsp_program_values }

/-- `katana_codec_deemphasis_texts`: the four de-emphasis names. -/
def katana_codec_deemphasis_texts : List String :=
  ["Bypass", "32kHz", "44.1kHz", "48kHz"]

/-- `katana_codec_deemphasis_values`: the register values for de-emphasis. -/
def katana_codec_deemphasis_values : List Nat :=
  [0, 1, 2, 3]

/-- `SOC_VALUE_ENUM_SINGLE_DECL(katana_codec_deemphasis,
KATANA_CODEC_DEEMPHASIS, 0, 0x03, texts, values)`. -/
def katana_codec_deemphasis : soc_enum :=
  { reg := KATANA_CODEC_DEEMPHASIS, shift_l := 0, mask := 0x03,
    texts := katana_codec_deemphasis_texts,
    values := katana_codec_deemphasis_values }

/-- `SNDRV_CTL_TLVD_DECLARE_DB_MINMAX(master_tlv, -12750, 0)`: a dB range in
units of 0.01 dB, so -127.50 dB to 0 dB. -/
def master_tlv : Int × Int := (-12750, 0)

/-- `struct snd_kcontrol_new` restricted to the four mixer-control macros
this driver uses. -/
inductive snd_kcontrol_new where
  | soc_double_r_tlv (name : String) (reg_left reg_right shift maxv invert : Nat)
      (tlv : Int × Int)
  | soc_double (name : String) (reg shift_left shift_right maxv invert : Nat)
  | soc_enum_ctl (name : String) (e : soc_enum)
  | soc_single (name : String) (reg shift maxv invert : Nat)
deriving DecidableEq

/-- `katana_codec_controls` (lines 131-138 of the source). -/
def katana_codec_controls : List snd_kcontrol_new :=
  [.soc_double_r_tlv "Master Playback Volume" KATANA_CODEC_VOLUME_1
      KATANA_CODEC_VOLUME_2 0 255 1 master_tlv,
   .soc_double "Master Playback Switch" KATANA_CODEC_MUTE 0 0 1 1,
   .soc_enum_ctl "DSP Program Route" katana_codec_dsp_program,
   .soc_enum_ctl "Deemphasis Route" katana_codec_deemphasis,
   .soc_single "DoP Playback Switch" KATANA_CODEC_DOP 0 1 1]

/-- `katana_codec_reg_defaults` (lines 74-83 of the source): the
`struct reg_default` table, as `(register, default)` pairs. -/
def katana_codec_reg_defaults : List (Nat × Nat) :=
  [(KATANA_CODEC_RESET, 0x00),
   (KATANA_CODEC_VOLUME_1, 0xF0),
   (KATANA_CODEC_VOLUME_2, 0xF0),
   (KATANA_CODEC_MUTE, 0x00),
   (KATANA_CODEC_DSP_PROGRAM, 0x04),
   (KATANA_CODEC_DEEMPHASIS, 0x00),
   (KATANA_CODEC_DOP, 0x00),
   (KATANA_CODEC_FORMAT, 0xb4)]

/-- `katana_codec_readable_register` (lines 140-149): a `switch` on the
register number with a single `KATANA_CODEC_CHIP_ID_REG` case returning
true and a default returning `reg < 0xff`. -/
def katana_codec_readable_register (reg : Nat) : Bool :=
  if reg = KATANA_CODEC_CHIP_ID_REG then true
  else decide (reg < 0xff)

/-- `katana_codec_dai_mute_stream` (lines 249-264).  `mute` is the C `int`
argument and `stream` the stream direction; `writeRet` is the environment's
return code for the `regmap_write` of `mute` to `KATANA_CODEC_MUTE_STREAM`.
The result pairs the C return value with the write attempts issued. -/
def katana_codec_dai_mute_stream (mute stream : Int) (writeRet : Int) :
    Int × List (Nat × Int) :=
  let attempts := [(KATANA_CODEC_MUTE_STREAM, mute)]
  if writeRet ≠ 0 then (writeRet, attempts)
  else (writeRet, attempts)

/-- `katana_codec_set_fmt` (lines 238-247): stores `fmt` in the private
state and returns 0. -/
def katana_codec_set_fmt (katana_codec : katana_codec_priv) (fmt : Nat) :
    Int × katana_codec_priv :=
  (0, { katana_codec with fmt := fmt })

/-- Claim C4: the component driver exposes exactly these five mixer
controls, in this order: the double-register TLV master volume over
0x102/0x103 with raw range 0..255, inverted, with dB range -127.50 dB
(-12750 in units of 0.01 dB) to 0 dB; the inverted master mute switch on
0x104; the DSP program enum; the de-emphasis enum; and the inverted DoP
switch on 0x107. -/
theorem controls_are_the_five_claimed :
    katana_codec_controls.length = 5 ∧
    katana_codec_controls =
      [.soc_double_r_tlv "Master Playback Volume" 0x102 0x103 0 255 1
          (-12750, 0),
       .soc_double "Master Playback Switch" 0x104 0 0 1 1,
       .soc_enum_ctl "DSP Program Route" katana_codec_dsp_program,
       .soc_enum_ctl "Deemphasis Route" katana_codec_deemphasis,
       .soc_single "DoP Playback Switch" 0x107 0 1 1] := by
  constructor
  · rfl
  · rfl

/-- Claim C5: the DSP-program enum has exactly 7 names, register values
`[0, 1, 2, 3, 4, 6, 7]` (value 5 skipped, so not the identity mapping
`[0, …, 6]`), on register 0x105; the de-emphasis enum has exactly the four
names Bypass/32kHz/44.1kHz/48kHz with values `[0, 1, 2, 3]` on register
0x106. -/
theorem enum_tables_as_claimed :
    katana_codec_dsp_program.texts.length = 7 ∧
    katana_codec_dsp_program.values = [0, 1, 2, 3, 4, 6, 7] ∧
    5 ∉ katana_codec_dsp_program.values ∧
    katana_codec_dsp_program.values ≠ List.range 7 ∧
    katana_codec_dsp_program.reg = 0x105 ∧
    katana_codec_deemphasis.texts = ["Bypass", "32kHz", "44.1kHz", "48kHz"] ∧
    katana_codec_deemphasis.values = [0, 1, 2, 3] ∧
    katana_codec_deemphasis.reg = 0x106 := by
  refine ⟨rfl, rfl, by decide, by decide, rfl, rfl, rfl, rfl⟩

/-- Claim C9: the register-default table has exactly 8 entries mapping
0x101..0x108 to the stated defaults, and neither the chip-id register
0x100 nor the mute-stream register 0x10A has a cached default. -/
theorem reg_defaults_as_claimed :
    katana_codec_reg_defaults.length = 8 ∧
    katana_codec_reg_defaults =
      [(0x101, 0x00), (0x102, 0xF0), (0x103, 0xF0), (0x104, 0x00),
       (0x105, 0x04), (0x106, 0x00), (0x107, 0x00), (0x108, 0xb4)] ∧
    0x100 ∉ katana_codec_reg_defaults.map Prod.fst ∧
    0x10A ∉ katana_codec_reg_defaults.map Prod.fst := by
  refine ⟨rfl, rfl, by decide, by decide⟩

/-- Claim C10: `katana_codec_readable_register` returns true for the
chip-id register 0x100 and for every register strictly below 0xff, false
everywhere else; in particular every virtual register 0x101..0x10A is not
readable. -/
theorem readable_register_as_claimed :
    katana_codec_readable_register 0x100 = true ∧
    (∀ reg : Nat, reg < 0xff → katana_codec_readable_register reg = true) ∧
    (∀ reg : Nat, reg ≠ 0x100 → ¬ reg < 0xff →
      katana_codec_readable_register reg = false) ∧
    (∀ reg : Nat, 0x101 ≤ reg → reg ≤ 0x10A →
      katana_codec_readable_register reg = false) := by
  refine ⟨rfl, ?_, ?_, ?_⟩
  · intro reg h
    have hne : reg ≠ 0x100 := by omega
    simp [katana_codec_readable_register, KATANA_CODEC_CHIP_ID_REG,
      KATANA_CODEC_VIRT_BASE, hne, h]
  · intro reg hne hge
    simp [katana_codec_readable_register, KATANA_CODEC_CHIP_ID_REG,
      KATANA_CODEC_VIRT_BASE, hne]
    omega
  · intro reg h1 h2
    have hne : reg ≠ 0x100 := by omega
    simp [katana_codec_readable_register, KATANA_CODEC_CHIP_ID_REG,
      KATANA_CODEC_VIRT_BASE, hne]
    omega

/-- Witness for C10: register 0x42 is readable, 0xff and the virtual
register 0x105 are not. -/
theorem readable_register_as_claimed_witness :
    katana_codec_readable_register 0x42 = true ∧
    katana_codec_readable_register 0xff = false ∧
    katana_codec_readable_register 0x105 = false :=
  ⟨readable_register_as_claimed.2.1 0x42 (by decide),
   readable_register_as_claimed.2.2.1 0xff (by decide) (by decide),
   readable_register_as_claimed.2.2.2 0x105 (by decide) (by decide)⟩

/-- Claim C7: for every mute value, stream and write outcome,
`katana_codec_dai_mute_stream` issues exactly one write attempt, of the
mute argument to the `KATANA_CODEC_MUTE_STREAM` register 0x10A, and
returns exactly the write's result code (0 on success, the error code on
failure), with no further register access. -/
theorem mute_stream_writes_and_propagates (mute stream writeRet : Int) :
    katana_codec_dai_mute_stream mute stream writeRet =
      (writeRet, [(0x10A, mute)]) := by
  by_cases h : writeRet ≠ 0 <;>
    simp [katana_codec_dai_mute_stream, h, KATANA_CODEC_MUTE_STREAM,
      KATANA_CODEC_VIRT_BASE]

/-- Side effects of `allo_katana_component_probe` and
`allo_katana_component_remove`, in program order: the
`regmap_update_bits(regmap, reg, mask, val)` reset write, the
`snd_soc_register_component` call, and the
`snd_soc_unregister_component` call. -/
inductive ProbeAction where
  | updateBits (reg mask val : Nat)
  | registerComponent
  | unregisterComponent
deriving DecidableEq

/-- `allo_katana_component_probe` (lines 316-353).

Environment responses: `regmapInit` is `some err` when
`devm_regmap_init_i2c` returns an error pointer with `PTR_ERR = err`,
`none` on success; `allocOk` is whether `devm_kzalloc` succeeds;
`readRet` and `chip_id` are the return code and the value delivered by
`regmap_read` of `KATANA_CODEC_CHIP_ID_REG`; `registerRet` is the return
code of `snd_soc_register_component` should it be reached.

Result: the C return value paired with the side effects performed.
Note the source's chip-id check: `if ((ret != 0) || (chip_id !=
KATANA_CODEC_CHIP_ID)) return ret;` returns `ret` itself, which is 0 when
the read succeeded but the id mismatched. -/
def allo_katana_component_probe (regmapInit : Option Int) (allocOk : Bool)
    (readRet : Int) (chip_id : Nat) (registerRet : Int) :
    Int × List ProbeAction :=
  match regmapInit with
  | some err => (err, [])
  | none =>
    if !allocOk then (-ENOMEM, [])
    else
      if readRet ≠ 0 ∨ chip_id ≠ KATANA_CODEC_CHIP_ID then
        (readRet, [])
      else
        let acts := [ProbeAction.updateBits KATANA_CODEC_RESET 0x01 0x01,
                     ProbeAction.registerComponent]
        if registerRet ≠ 0 then (registerRet, acts)
        else (0, acts)

/-- `allo_katana_component_remove` (lines 355-358): the side effects it
performs. -/
def allo_katana_component_remove : List ProbeAction :=
  [ProbeAction.unregisterComponent]

/-- Claim C3 evaluation: when the chip-id read succeeds (return 0) but the
value read (here 0x31) differs from `KATANA_CODEC_CHIP_ID` (0x30), probe
returns `ret`, i.e. 0 — not a nonzero error code — and performs no reset
and no component registration. -/
theorem probe_chip_id_mismatch_returns_zero :
    allo_katana_component_probe none true 0 0x31 0 = (0, []) := by decide

/-- Claim C6: probe's step order and error propagation.  A regmap
initialization failure returns that error with nothing done; an allocation
failure returns `-ENOMEM` with nothing done; with a correct chip id, the
reset write of bit 0 of `KATANA_CODEC_RESET` (0x101) happens before the
component registration, a failing `snd_soc_register_component` has its
error code returned, and full success returns 0; remove's only effect is
unregistering the component; and the registration is attempted only after
every earlier step has succeeded. -/
theorem probe_step_order_and_errors (e : Int) (allocOk : Bool)
    (readRet registerRet : Int) (cid : Nat) :
    allo_katana_component_probe (some e) allocOk readRet cid registerRet =
      (e, []) ∧
    allo_katana_component_probe none false readRet cid registerRet =
      (-ENOMEM, []) ∧
    (registerRet ≠ 0 →
      allo_katana_component_probe none true 0 KATANA_CODEC_CHIP_ID
          registerRet =
        (registerRet, [.updateBits 0x101 0x01 0x01, .registerComponent])) ∧
    allo_katana_component_probe none true 0 KATANA_CODEC_CHIP_ID 0 =
      (0, [.updateBits 0x101 0x01 0x01, .registerComponent]) ∧
    allo_katana_component_remove = [.unregisterComponent] ∧
    (∀ (ri : Option Int) (ao : Bool) (rr : Int) (c : Nat) (rg : Int),
      ProbeAction.registerComponent ∈
          (allo_katana_component_probe ri ao rr c rg).2 →
        ri = none ∧ ao = true ∧ rr = 0 ∧ c = KATANA_CODEC_CHIP_ID) := by
  refine ⟨rfl, rfl, ?_, by decide, rfl, ?_⟩
  · intro hrg
    simp [allo_katana_component_probe, hrg, KATANA_CODEC_RESET,
      KATANA_CODEC_VIRT_BASE]
  · intro ri ao rr c rg hmem
    match ri with
    | some e' => simp [allo_katana_component_probe] at hmem
    | none =>
      cases ao with
      | false => simp [allo_katana_component_probe] at hmem
      | true =>
        by_cases hbad : rr ≠ 0 ∨ c ≠ KATANA_CODEC_CHIP_ID
        · simp [allo_katana_component_probe, hbad] at hmem
        · push_neg at hbad
          exact ⟨rfl, rfl, hbad.1, hbad.2⟩

/-- Witness for C6: a concrete failing registration (code -5, `-EIO`) and
the registration-implies-all-steps-succeeded conjunct applied at the full
success run. -/
theorem probe_step_order_and_errors_witness :
    allo_katana_component_probe none true 0 0x30 (-5) =
      ((-5 : Int), [.updateBits 0x101 0x01 0x01, .registerComponent]) ∧
    ((none : Option Int) = none ∧ true = true ∧ (0 : Int) = 0 ∧
      (0x30 : Nat) = KATANA_CODEC_CHIP_ID) :=
  ⟨(probe_step_order_and_errors 0 true 0 (-5) 0x30).2.2.1 (by decide),
   (probe_step_order_and_errors 0 true 0 0 0x30).2.2.2.2.2 none true 0 0x30 0
      (by decide)⟩

/-- Claim C8: `katana_codec_set_fmt` returns 0 and its only effect is
storing `fmt` (the regmap handle is untouched); with a stored format whose
master field is `SND_SOC_DAIFMT_CBS_CFS`, `katana_codec_hw_params` returns
0 and issues no register write; with a master field that is neither
`SND_SOC_DAIFMT_CBM_CFM` nor `SND_SOC_DAIFMT_CBS_CFS` it returns `-EINVAL`
and issues no register write. -/
theorem set_fmt_stores_and_slave_mode_is_noop (p : katana_codec_priv)
    (f sf ch w r : Nat) (wret : Int) :
    katana_codec_set_fmt p f = (0, { regmap := p.regmap, fmt := f }) ∧
    (sf &&& SND_SOC_DAIFMT_MASTER_MASK = SND_SOC_DAIFMT_CBS_CFS →
      katana_codec_hw_params sf ch w r wret = (0, [])) ∧
    (sf &&& SND_SOC_DAIFMT_MASTER_MASK ≠ SND_SOC_DAIFMT_CBM_CFM →
      sf &&& SND_SOC_DAIFMT_MASTER_MASK ≠ SND_SOC_DAIFMT_CBS_CFS →
      katana_codec_hw_params sf ch w r wret = (-EINVAL, [])) := by
  refine ⟨rfl, ?_, ?_⟩
  · intro hs
    simp [katana_codec_hw_params, hs, SND_SOC_DAIFMT_CBS_CFS,
      SND_SOC_DAIFMT_CBM_CFM, SND_SOC_DAIFMT_MASTER_MASK] at hs ⊢
  · intro h1 h2
    simp [katana_codec_hw_params, h1, h2]

/-- Witness for C8: storing format 0x4001 (I2S, codec slave), then a
slave-mode hw_params call that is a no-op, and an unsupported master field
(0x2000, `SND_SOC_DAIFMT_CBS_CFM`) rejected with `-EINVAL`. -/
theorem set_fmt_stores_and_slave_mode_is_noop_witness :
    katana_codec_set_fmt ⟨7, 0⟩ 0x4001 = (0, { regmap := 7, fmt := 0x4001 }) ∧
    katana_codec_hw_params 0x4001 2 16 44100 0 = (0, []) ∧
    katana_codec_hw_params 0x2000 2 16 44100 0 = (-EINVAL, []) :=
  ⟨(set_fmt_stores_and_slave_mode_is_noop ⟨7, 0⟩ 0x4001 0 0 0 0 0).1,
   (set_fmt_stores_and_slave_mode_is_noop ⟨7, 0⟩ 0 0x4001 2 16 44100 0).2.1
      (by decide),
   (set_fmt_stores_and_slave_mode_is_noop ⟨7, 0⟩ 0 0x2000 2 16 44100 0).2.2
      (by decide) (by decide)⟩

end AlloKatana
